import Mathlib

/-
  Verification of the gsunit-test repository (gsunit.js) against its
  natural-language specification.

  The development shallowly embeds the two source classes:
  - class GsUnit   (the assertion library) as pure functions over GsUnitState,
    each assertion returning the updated state together with an
    Except Thrown result (Except.error models a JavaScript throw);
  - class RunTests (the test engine) as pure functions over RunState.

  JavaScript values relevant to the assertions are modelled by JSPrim
  (primitive values, with rationals plus an explicit NaN for numbers),
  JSVal (primitives or flat arrays of primitives) and JSHash
  (objects viewed as association lists from string keys to primitives).
  Spreadsheet / console / toast output is presentation-layer I/O with no
  decision logic and is omitted, as are the color and layout fields.
-/

set_option autoImplicit false

/-- JavaScript numbers restricted to the fragment used here: either NaN or a
rational value. -/
inductive JSNum where
  | nan
  | num (q : ℚ)
  deriving DecidableEq, Repr

/-- JavaScript primitive values: undefined, null, booleans, numbers, strings. -/
inductive JSPrim where
  | undef
  | null
  | bool (b : Bool)
  | num (n : JSNum)
  | str (s : String)
  deriving DecidableEq, Repr

/-- A JavaScript value as passed to the array assertions: a primitive, or a
flat array of primitives. -/
inductive JSVal where
  | prim (p : JSPrim)
  | arr (xs : List JSPrim)
  deriving DecidableEq, Repr

/-- A JavaScript object viewed as a hash: an association list from string keys
to primitive values (a real object has pairwise distinct keys). -/
abbrev JSHash : Type := List (String × JSPrim)

/-- Values that can appear in the actual / expected fields of an AssertFail. -/
inductive JSAny where
  | prim (p : JSPrim)
  | arr (xs : List JSPrim)
  | hash (h : List (String × JSPrim))
  deriving DecidableEq, Repr

/-- Strict number equality: NaN is equal to nothing, including itself. -/
def jsNumEq : JSNum → JSNum → Bool
  | JSNum.num a, JSNum.num b => a == b
  | _, _ => false

/-- Model of the JavaScript ToNumber coercion on strings, restricted to
optionally signed decimal literals with an optional fractional part; all other
strings map to NaN. The empty (or all-blank) string maps to 0. -/
def jsStrToNumber (s : String) : JSNum :=
  let t := s.trim
  if t = "" then JSNum.num 0
  else
    let sgn : ℚ := if t.startsWith "-" then -1 else 1
    let u := if t.startsWith "-" || t.startsWith "+" then t.drop 1 else t
    match u.splitOn "." with
    | [w] =>
      match w.toNat? with
      | some n => JSNum.num (sgn * n)
      | none => JSNum.nan
    | [w, f] =>
      match w.toNat?, f.toNat? with
      | some n, some m => JSNum.num (sgn * (n + (m : ℚ) / (10 ^ f.length)))
      | _, _ => JSNum.nan
    | _ => JSNum.nan

/-- The numeric value of a boolean under ToNumber. -/
def jsBoolNum (b : Bool) : JSNum :=
  JSNum.num (if b then 1 else 0)

/-- JavaScript loose equality (the == operator) on primitive values, following
the abstract equality algorithm: null and undefined equal each other and
nothing else, numbers compare with NaN never equal, strings compare with
numbers after ToNumber, and booleans are coerced to numbers first. -/
def jsLooseEq : JSPrim → JSPrim → Bool
  | JSPrim.undef, JSPrim.undef => true
  | JSPrim.undef, JSPrim.null => true
  | JSPrim.null, JSPrim.undef => true
  | JSPrim.null, JSPrim.null => true
  | JSPrim.bool a, JSPrim.bool b => a == b
  | JSPrim.num a, JSPrim.num b => jsNumEq a b
  | JSPrim.str a, JSPrim.str b => a == b
  | JSPrim.num a, JSPrim.str s => jsNumEq a (jsStrToNumber s)
  | JSPrim.str s, JSPrim.num b => jsNumEq (jsStrToNumber s) b
  | JSPrim.bool a, JSPrim.num b => jsNumEq (jsBoolNum a) b
  | JSPrim.num a, JSPrim.bool b => jsNumEq a (jsBoolNum b)
  | JSPrim.bool a, JSPrim.str s => jsNumEq (jsBoolNum a) (jsStrToNumber s)
  | JSPrim.str s, JSPrim.bool b => jsNumEq (jsStrToNumber s) (jsBoolNum b)
  | _, _ => false

/-- JavaScript strict equality (the === operator) on primitive values:
different types are never equal, NaN is not equal to itself. -/
def jsStrictEq : JSPrim → JSPrim → Bool
  | JSPrim.undef, JSPrim.undef => true
  | JSPrim.null, JSPrim.null => true
  | JSPrim.bool a, JSPrim.bool b => a == b
  | JSPrim.num a, JSPrim.num b => jsNumEq a b
  | JSPrim.str a, JSPrim.str b => a == b
  | _, _ => false

/-- JavaScript truthiness: undefined, null, false, 0, NaN and the empty string
are falsy, everything else is truthy. -/
def jsTruthy : JSPrim → Bool
  | JSPrim.undef => false
  | JSPrim.null => false
  | JSPrim.bool b => b
  | JSPrim.num JSNum.nan => false
  | JSPrim.num (JSNum.num q) => q != 0
  | JSPrim.str s => s != ""

/-- The typeof operator on the primitive fragment. -/
def jsTypeof : JSPrim → String
  | JSPrim.undef => "undefined"
  | JSPrim.null => "object"
  | JSPrim.bool _ => "boolean"
  | JSPrim.num _ => "number"
  | JSPrim.str _ => "string"

/-- Model of JavaScript number-to-string conversion for this fragment. -/
def jsNumToString : JSNum → String
  | JSNum.nan => "NaN"
  | JSNum.num q => if q.den = 1 then toString q.num else toString q

/-- Model of JavaScript string coercion of primitives, used when the source
builds failure messages by string concatenation. -/
def jsToString : JSPrim → String
  | JSPrim.undef => "undefined"
  | JSPrim.null => "null"
  | JSPrim.bool b => if b then "true" else "false"
  | JSPrim.num n => jsNumToString n
  | JSPrim.str s => s

/-- Subtraction on JavaScript numbers; NaN propagates. -/
def jsSub : JSNum → JSNum → JSNum
  | JSNum.num a, JSNum.num b => JSNum.num (a - b)
  | _, _ => JSNum.nan

/-- Math.abs; NaN propagates. -/
def jsAbs : JSNum → JSNum
  | JSNum.num a => JSNum.num (abs a)
  | JSNum.nan => JSNum.nan

/-- The greater-than comparison on JavaScript numbers: any comparison
involving NaN is false. -/
def jsGt : JSNum → JSNum → Bool
  | JSNum.num a, JSNum.num b => decide (a > b)
  | _, _ => false

/-- JavaScript array read at a numeric index: out-of-range reads give
undefined. -/
def jsIndex (xs : List JSPrim) (i : Nat) : JSPrim :=
  xs.getD i JSPrim.undef

/-- JavaScript member read on a hash: an absent key gives undefined, a present
key gives its (first) binding. -/
def hashLookup (h : JSHash) (k : String) : JSPrim :=
  match List.find? (fun p => p.1 == k) h with
  | some p => p.2
  | none => JSPrim.undef

/-- Substring test modelling String.prototype.includes. -/
def jsIncludesAux (needle : List Char) : List Char → Bool
  | [] => needle.isEmpty
  | c :: rest => List.isPrefixOf needle (c :: rest) || jsIncludesAux needle rest

/-- String.prototype.includes: does the first string contain the second as a
substring. -/
def jsIncludes (hay needle : String) : Bool :=
  jsIncludesAux needle.toList hay.toList

/-- The AssertFail exception of gsunit.js. The constructor there sets
this.name to the literal string AssertFail and builds the Error message as
"for " + operator + ". " + msg, with the code appended in brackets when it is
nonempty; mkAssertFail below performs that construction. -/
structure AssertFail where
  message : String
  operator : String
  code : String
  actual : JSAny
  expected : JSAny
  deriving DecidableEq, Repr

/-- The AssertFail constructor of gsunit.js (class AssertFail extends Error). -/
def mkAssertFail (pMsg : String) (pActual pExpected : JSAny)
    (pOperator : String) (pCode : String) : AssertFail :=
  { message := "for " ++ pOperator ++ ". " ++ pMsg ++
      (if pCode ≠ "" then " [" ++ pCode ++ "]" else "")
    operator := pOperator
    code := pCode
    actual := pActual
    expected := pExpected }

/-- Any other JavaScript error signal: a name (such as Error or TypeError) and
a message. -/
structure JSError where
  name : String
  message : String
  deriving DecidableEq, Repr

/-- A thrown JavaScript value: either an AssertFail or some other error. -/
inductive Thrown where
  | assertFail (e : AssertFail)
  | jsError (e : JSError)
  deriving DecidableEq, Repr

/-- The name field of a thrown value; the AssertFail constructor always sets
it to the string AssertFail, which is what RunTests.runTests dispatches on. -/
def Thrown.name : Thrown → String
  | Thrown.assertFail _ => "AssertFail"
  | Thrown.jsError e => e.name

/-- The mutable state of a GsUnit instance: its configuration fields and the
running assertion counter numAsserts. -/
structure GsUnitState where
  name : String
  debug : Bool
  showDefault : Bool
  numAsserts : Nat
  deriving DecidableEq, Repr

namespace GsUnit

/-- GsUnit private helper combining the default message with the user
message. -/
def _default (st : GsUnitState) (pMsg pDefault : String) : String :=
  if pMsg = "" then pDefault
  else if pDefault ≠ "" ∧ st.showDefault then pDefault ++ " " ++ pMsg
  else pMsg

/-- The numAsserts increment performed at the top of every assert method. -/
def bump (st : GsUnitState) : GsUnitState :=
  { st with numAsserts := st.numAsserts + 1 }

/-- GsUnit.fail: throws unconditionally. Note that, unlike every assert
method, the source does not increment numAsserts here. -/
def fail (st : GsUnitState) (pMsg pCode : String) :
    GsUnitState × Except Thrown Unit :=
  (st, Except.error (Thrown.assertFail (mkAssertFail pMsg
    (JSAny.prim (JSPrim.bool true)) (JSAny.prim (JSPrim.bool false)) "Fail" pCode)))

/-- GsUnit.assertTrue. -/
def assertTrue (st : GsUnitState) (pMsg : String) (pActual : JSPrim)
    (pCode : String) : GsUnitState × Except Thrown Unit :=
  let st := bump st
  if !(jsTruthy pActual) then
    (st, Except.error (Thrown.assertFail (mkAssertFail
      (_default st pMsg "Expected actual to be true.")
      (JSAny.prim pActual) (JSAny.prim (JSPrim.bool true)) "True" pCode)))
  else (st, Except.ok ())

/-- GsUnit.assertFalse. -/
def assertFalse (st : GsUnitState) (pMsg : String) (pActual : JSPrim)
    (pCode : String) : GsUnitState × Except Thrown Unit :=
  let st := bump st
  if jsTruthy pActual then
    (st, Except.error (Thrown.assertFail (mkAssertFail
      (_default st pMsg "Expected actual to be false.")
      (JSAny.prim pActual) (JSAny.prim (JSPrim.bool false)) "False" pCode)))
  else (st, Except.ok ())

/-- GsUnit.assertNull; the guard is the loose comparison pActual != null, and
the source passes true as the expected field. -/
def assertNull (st : GsUnitState) (pMsg : String) (pActual : JSPrim)
    (pCode : String) : GsUnitState × Except Thrown Unit :=
  let st := bump st
  if !(jsLooseEq pActual JSPrim.null) then
    (st, Except.error (Thrown.assertFail (mkAssertFail
      (_default st pMsg "Expected actual to be null.")
      (JSAny.prim pActual) (JSAny.prim (JSPrim.bool true)) "Null" pCode)))
  else (st, Except.ok ())

/-- GsUnit.assertNotNull. -/
def assertNotNull (st : GsUnitState) (pMsg : String) (pActual : JSPrim)
    (pCode : String) : GsUnitState × Except Thrown Unit :=
  let st := bump st
  if jsLooseEq pActual JSPrim.null then
    (st, Except.error (Thrown.assertFail (mkAssertFail
      (_default st pMsg "Expected actual to not be null.")
      (JSAny.prim pActual) (JSAny.prim (JSPrim.bool true)) "NotNull" pCode)))
  else (st, Except.ok ())

/-- GsUnit.assertUndefined; the guard is the loose comparison
pActual != undefined. -/
def assertUndefined (st : GsUnitState) (pMsg : String) (pActual : JSPrim)
    (pCode : String) : GsUnitState × Except Thrown Unit :=
  let st := bump st
  if !(jsLooseEq pActual JSPrim.undef) then
    (st, Except.error (Thrown.assertFail (mkAssertFail
      (_default st pMsg "Expected actual to be undefined.")
      (JSAny.prim pActual) (JSAny.prim (JSPrim.bool true)) "Undefined" pCode)))
  else (st, Except.ok ())

/-- GsUnit.assertNotUndefined. -/
def assertNotUndefined (st : GsUnitState) (pMsg : String) (pActual : JSPrim)
    (pCode : String) : GsUnitState × Except Thrown Unit :=
  let st := bump st
  if jsLooseEq pActual JSPrim.undef then
    (st, Except.error (Thrown.assertFail (mkAssertFail
      (_default st pMsg "Expected actual to not be undefined.")
      (JSAny.prim pActual) (JSAny.prim (JSPrim.bool true)) "NotUndefined" pCode)))
  else (st, Except.ok ())

/-- GsUnit.assertNaN; the guard is the loose comparison pActual != NaN, which
under NaN semantics is true for every input. -/
def assertNaN (st : GsUnitState) (pMsg : String) (pActual : JSPrim)
    (pCode : String) : GsUnitState × Except Thrown Unit :=
  let st := bump st
  if !(jsLooseEq pActual (JSPrim.num JSNum.nan)) then
    (st, Except.error (Thrown.assertFail (mkAssertFail
      (_default st pMsg "Expected actual to not be a number.")
      (JSAny.prim pActual) (JSAny.prim (JSPrim.bool true)) "NaN" pCode)))
  else (st, Except.ok ())

/-- GsUnit.assertNotNaN; the guard is the loose comparison pActual == NaN,
which under NaN semantics is false for every input. -/
def assertNotNaN (st : GsUnitState) (pMsg : String) (pActual : JSPrim)
    (pCode : String) : GsUnitState × Except Thrown Unit :=
  let st := bump st
  if jsLooseEq pActual (JSPrim.num JSNum.nan) then
    (st, Except.error (Thrown.assertFail (mkAssertFail
      (_default st pMsg "Expected actual to be a number.")
      (JSAny.prim pActual) (JSAny.prim (JSPrim.bool true)) "NotNaN" pCode)))
  else (st, Except.ok ())

/-- GsUnit.assertEqual (loose comparison). -/
def assertEqual (st : GsUnitState) (pMsg : String) (pActual pExpected : JSPrim)
    (pCode : String) : GsUnitState × Except Thrown Unit :=
  let st := bump st
  if !(jsLooseEq pActual pExpected) then
    (st, Except.error (Thrown.assertFail (mkAssertFail
      (_default st pMsg ("Expected \"" ++ jsToString pExpected ++ "\"\ngot \"" ++
        jsToString pActual ++ "\"."))
      (JSAny.prim pActual) (JSAny.prim pExpected) "Equal" pCode)))
  else (st, Except.ok ())

/-- GsUnit.assertNotEqual (loose comparison). -/
def assertNotEqual (st : GsUnitState) (pMsg : String)
    (pActual pExpected : JSPrim) (pCode : String) :
    GsUnitState × Except Thrown Unit :=
  let st := bump st
  if jsLooseEq pActual pExpected then
    (st, Except.error (Thrown.assertFail (mkAssertFail
      (_default st pMsg ("Expected \"" ++ jsToString pActual ++
        "\" to not equal expected value."))
      (JSAny.prim pActual) (JSAny.prim pExpected) "NotEqual" pCode)))
  else (st, Except.ok ())

/-- GsUnit.assertTypeEqual (strict comparison). -/
def assertTypeEqual (st : GsUnitState) (pMsg : String)
    (pActual pExpected : JSPrim) (pCode : String) :
    GsUnitState × Except Thrown Unit :=
  let st := bump st
  if !(jsStrictEq pActual pExpected) then
    (st, Except.error (Thrown.assertFail (mkAssertFail
      (_default st pMsg ("Expected \"" ++ jsToString pExpected ++
        "\" to exactly equal \"" ++ jsToString pActual ++ "\"."))
      (JSAny.prim pActual) (JSAny.prim pExpected) "TypeEqual" pCode)))
  else (st, Except.ok ())

/-- GsUnit.assertSameType: compares the typeof strings. -/
def assertSameType (st : GsUnitState) (pMsg : String)
    (pActual pExpected : JSPrim) (pCode : String) :
    GsUnitState × Except Thrown Unit :=
  let st := bump st
  if jsTypeof pActual ≠ jsTypeof pExpected then
    (st, Except.error (Thrown.assertFail (mkAssertFail
      (_default st pMsg ("Expected typeof \"" ++ jsToString pExpected ++
        "\" to match type of \"" ++ jsToString pActual ++ "\"."))
      (JSAny.prim pActual) (JSAny.prim pExpected) "SameType" pCode)))
  else (st, Except.ok ())

/-- Models the property access pActual.isNaN on a number value: Number
primitives have no isNaN own or prototype property, so the access yields
undefined (which is falsy) for every number, NaN included. -/
def numDotIsNaN (_ : JSNum) : JSPrim := JSPrim.undef

/-- GsUnit.assertRoughlyEqual. The first guard reads the isNaN property of
each argument, which is always undefined, hence falsy; the second guard is
Math.abs(pActual - pExpected) > pTolerance, which is false whenever NaN is
involved. -/
def assertRoughlyEqual (st : GsUnitState) (pMsg : String)
    (pActual pExpected pTolerance : JSNum) (pCode : String) :
    GsUnitState × Except Thrown Unit :=
  let st := bump st
  if jsTruthy (numDotIsNaN pActual) || jsTruthy (numDotIsNaN pExpected) ||
      jsTruthy (numDotIsNaN pTolerance) then
    (st, Except.error (Thrown.assertFail (mkAssertFail
      (_default st pMsg "One of the aguments is NaN.")
      (JSAny.prim (JSPrim.num pActual)) (JSAny.prim (JSPrim.num pExpected))
      "RoughlyEqual" pCode)))
  else if jsGt (jsAbs (jsSub pActual pExpected)) pTolerance then
    (st, Except.error (Thrown.assertFail (mkAssertFail
      (_default st pMsg "Out of tolerance.")
      (JSAny.prim (JSPrim.num pActual)) (JSAny.prim (JSPrim.num pExpected))
      "RoughlyEqual" pCode)))
  else (st, Except.ok ())

/-- The element loop of GsUnit.assertArrayEqual: for (let i in pActual),
throwing at the first index whose elements are not strictly equal. -/
def arrayEqLoop (pMsg pCode : String) (pExpected : List JSPrim) :
    Nat → List JSPrim → Except Thrown Unit
  | _, [] => Except.ok ()
  | i, a :: rest =>
    if jsStrictEq a (jsIndex pExpected i) then
      arrayEqLoop pMsg pCode pExpected (i + 1) rest
    else
      Except.error (Thrown.assertFail (mkAssertFail
        (pMsg ++ "\n At index=" ++ toString i ++ " expected=\"" ++
          jsToString (jsIndex pExpected i) ++ "\" got=\"" ++ jsToString a ++ "\"")
        (JSAny.prim a) (JSAny.prim (jsIndex pExpected i)) "ArrayEqual" pCode))

/-- GsUnit.assertArrayEqual: both arguments must be arrays (the match on the
arr constructors realizes the two Array.isArray guards), the lengths must
agree, and the elements must be strictly equal index by index. All three
throw sites pass pMsg without the default-message helper, as in the source. -/
def assertArrayEqual (st : GsUnitState) (pMsg : String)
    (pActual pExpected : JSVal) (pCode : String) :
    GsUnitState × Except Thrown Unit :=
  let st := bump st
  match pActual, pExpected with
  | JSVal.arr as, JSVal.arr es =>
    if as.length ≠ es.length then
      (st, Except.error (Thrown.assertFail (mkAssertFail pMsg
        (JSAny.arr as) (JSAny.arr es) "ArrayEqual" pCode)))
    else (st, arrayEqLoop pMsg pCode es 0 as)
  | JSVal.arr as, JSVal.prim e =>
    (st, Except.error (Thrown.assertFail (mkAssertFail pMsg
      (JSAny.arr as) (JSAny.prim e) "ArrayEqual" pCode)))
  | JSVal.prim a, e =>
    (st, Except.error (Thrown.assertFail (mkAssertFail pMsg
      (JSAny.prim a)
      (match e with
       | JSVal.prim p => JSAny.prim p
       | JSVal.arr xs => JSAny.arr xs) "ArrayEqual" pCode)))

/-- First loop of GsUnit.assertHashEqual, over the keys of pActual:
throws when pExpected[key] == undefined or pActual[key] != pExpected[key]. -/
def hashLoop1 (st : GsUnitState) (pMsg pCode : String)
    (pActual pExpected : JSHash) : List (String × JSPrim) → Except Thrown Unit
  | [] => Except.ok ()
  | (k, _) :: rest =>
    if jsLooseEq (hashLookup pExpected k) JSPrim.undef ||
        !(jsLooseEq (hashLookup pActual k) (hashLookup pExpected k)) then
      Except.error (Thrown.assertFail (mkAssertFail
        (_default st pMsg "Actual key is not found in expected hash or the values are not equal.")
        (JSAny.hash pActual) (JSAny.hash pExpected) "HashEqual" pCode))
    else hashLoop1 st pMsg pCode pActual pExpected rest

/-- Second loop of GsUnit.assertHashEqual, over the keys of pExpected:
throws when pActual[key] == undefined. -/
def hashLoop2 (st : GsUnitState) (pMsg pCode : String)
    (pActual pExpected : JSHash) : List (String × JSPrim) → Except Thrown Unit
  | [] => Except.ok ()
  | (k, _) :: rest =>
    if jsLooseEq (hashLookup pActual k) JSPrim.undef then
      Except.error (Thrown.assertFail (mkAssertFail
        (_default st pMsg "Expected key is not found in actual hash.")
        (JSAny.hash pActual) (JSAny.hash pExpected) "HashEqual" pCode))
    else hashLoop2 st pMsg pCode pActual pExpected rest

/-- GsUnit.assertHashEqual: both key loops in sequence. -/
def assertHashEqual (st : GsUnitState) (pMsg : String)
    (pActual pExpected : JSHash) (pCode : String) :
    GsUnitState × Except Thrown Unit :=
  let st := bump st
  match hashLoop1 st pMsg pCode pActual pExpected pActual with
  | Except.error t => (st, Except.error t)
  | Except.ok _ => (st, hashLoop2 st pMsg pCode pActual pExpected pExpected)

/-- The element loop of GsUnit.assertArrayContains: loose comparison against
each element. -/
def arrayContainsLoop (pValue : JSPrim) : List JSPrim → Bool
  | [] => false
  | x :: xs => if jsLooseEq x pValue then true else arrayContainsLoop pValue xs

/-- GsUnit.assertArrayContains: returns true when some element is loosely
equal to pValue; throws when pActual is not an array or no element matches. -/
def assertArrayContains (st : GsUnitState) (pMsg : String) (pActual : JSVal)
    (pValue : JSPrim) (pCode : String) : GsUnitState × Except Thrown Bool :=
  let st := bump st
  match pActual with
  | JSVal.prim a =>
    (st, Except.error (Thrown.assertFail (mkAssertFail
      (_default st pMsg "Actual is not an array.")
      (JSAny.prim a) (JSAny.prim pValue) "ArrayContains" pCode)))
  | JSVal.arr xs =>
    if arrayContainsLoop pValue xs then (st, Except.ok true)
    else
      (st, Except.error (Thrown.assertFail (mkAssertFail
        (_default st pMsg ("Array does not contain expected value: " ++
          jsToString pValue))
        (JSAny.arr xs) (JSAny.prim pValue) "ArrayContains" pCode)))

/-- GsUnit.assertStrContains: both arguments must have typeof string (the
match realizes the typeof guards), and pActual must include pExpected. -/
def assertStrContains (st : GsUnitState) (pMsg : String)
    (pActual pExpected : JSPrim) (pCode : String) :
    GsUnitState × Except Thrown Unit :=
  let st := bump st
  match pActual, pExpected with
  | JSPrim.str a, JSPrim.str e =>
    if !(jsIncludes a e) then
      (st, Except.error (Thrown.assertFail (mkAssertFail
        (_default st pMsg ("Expected string was not found: \"" ++ e ++ "\""))
        (JSAny.prim (JSPrim.str a)) (JSAny.prim (JSPrim.str e))
        "StrContains" pCode)))
    else (st, Except.ok ())
  | a, e =>
    (st, Except.error (Thrown.assertFail (mkAssertFail
      (_default st pMsg "One of the arugments is not a string.")
      (JSAny.prim a) (JSAny.prim e) "StrContains" pCode)))

/-- GsUnit.assertStrNotContains. -/
def assertStrNotContains (st : GsUnitState) (pMsg : String)
    (pActual pExpected : JSPrim) (pCode : String) :
    GsUnitState × Except Thrown Unit :=
  let st := bump st
  match pActual, pExpected with
  | JSPrim.str a, JSPrim.str e =>
    if jsIncludes a e then
      (st, Except.error (Thrown.assertFail (mkAssertFail
        (_default st pMsg ("Expected string was found: \"" ++ e ++ "\""))
        (JSAny.prim (JSPrim.str a)) (JSAny.prim (JSPrim.str e))
        "StrNotContains" pCode)))
    else (st, Except.ok ())
  | a, e =>
    (st, Except.error (Thrown.assertFail (mkAssertFail
      (_default st pMsg "One of the arugments is not a string.")
      (JSAny.prim a) (JSAny.prim e) "StrNotContains" pCode)))

/-- GsUnit.assertThrow. The argument stands for the result of invoking the
callable with no arguments: Except.error for a throw, Except.ok for a normal
return. In the source, the throw of the freshly built AssertFail sits inside
the try block, so it is caught by the same catch clause, which returns e;
hence both branches return normally and the method never raises. -/
def assertThrow (st : GsUnitState) (pMsg : String)
    (pActual : Except Thrown JSPrim) (pCode : String) :
    GsUnitState × Except Thrown Thrown :=
  let st := bump st
  match pActual with
  | Except.ok _ =>
    (st, Except.ok (Thrown.assertFail (mkAssertFail
      (_default st pMsg "Expected a throw.")
      (JSAny.prim (JSPrim.str "pActual")) (JSAny.prim (JSPrim.bool true))
      "Throw" pCode)))
  | Except.error e => (st, Except.ok e)

end GsUnit

/-- A registered test function: a reporting label (derived from its source
text in listTests and the result rows) together with the outcome of invoking
it with no arguments — none for a normal return, some t for a raised t. -/
structure TestFun where
  label : String
  result : Option Thrown
  deriving DecidableEq, Repr

/-- The state of a RunTests instance: the private _testList registry, the
err / fail / pass counters, and the presentation toggles. The spreadsheet,
ui and sheet handles, colors, result width and email are presentation-layer
fields with no decision logic and are omitted. -/
structure RunState where
  testList : List TestFun
  name : String
  debug : Bool
  err : Nat
  fail : Nat
  pass : Nat
  showInConsole : Bool
  showInSheet : Bool
  showPass : Bool
  showToast : Bool
  showResults : Bool
  deriving DecidableEq, Repr

/-- An argument passed to RunTests.addTest: either a genuine function or some
non-callable value. -/
inductive RegArg where
  | fn (f : TestFun)
  | notFn (v : JSPrim)
  deriving DecidableEq, Repr

/-- The typeof of an addTest argument; only the fn constructor has typeof
function. -/
def RegArg.typeofArg : RegArg → String
  | RegArg.fn _ => "function"
  | RegArg.notFn v => jsTypeof v

/-- The classification a test outcome receives in runTests. -/
inductive TestStatus where
  | pass
  | fail
  | error
  deriving DecidableEq, Repr

namespace RunTests

/-- RunTests.resetTests: clears the three counters and empties _testList.
The sheet-clearing branch is presentation I/O. Note it does not touch the
GsUnit assertion counter. -/
def resetTests (st : RunState) : RunState :=
  { st with err := 0, fail := 0, pass := 0, testList := [] }

/-- RunTests.addTest: the guard typeof(pTest) != function rejects every
non-callable argument, incrementing this.err and throwing a plain Error
before the push; a callable argument is appended to _testList. -/
def addTest (st : RunState) (pTest : RegArg) : RunState × Except JSError Unit :=
  if pTest.typeofArg ≠ "function" then
    ({ st with err := st.err + 1 },
     Except.error { name := "Error", message := "addTest argument is not a function." })
  else
    match pTest with
    | RegArg.fn f => ({ st with testList := st.testList ++ [f] }, Except.ok ())
    | RegArg.notFn _ =>
      ({ st with err := st.err + 1 },
       Except.error { name := "Error", message := "addTest argument is not a function." })

/-- One iteration of the runTests loop: invoke the test inside the protected
region and classify. A normal return is _testPass; a raised value whose name
is AssertFail is _testFail; any other raised value is _testError. -/
def runOne (st : RunState) (f : TestFun) : RunState × TestStatus :=
  match f.result with
  | none => ({ st with pass := st.pass + 1 }, TestStatus.pass)
  | some e =>
    if e.name = "AssertFail" then ({ st with fail := st.fail + 1 }, TestStatus.fail)
    else ({ st with err := st.err + 1 }, TestStatus.error)

/-- The for-of loop of RunTests.runTests over _testList, also recording the
per-test outcome rows (label and classification) in execution order. -/
def runTestsGo (st : RunState) : List TestFun → RunState × List (String × TestStatus)
  | [] => (st, [])
  | f :: rest =>
    let r1 := runOne st f
    let r2 := runTestsGo r1.1 rest
    (r2.1, (f.label, r1.2) :: r2.2)

/-- RunTests.runTests: run every registered test in registration order, each
inside its own try / catch, so a throw in one test body is classified and the
loop continues with the next test. Console timing and sheet output are
presentation I/O. Returns the final state and the outcome rows. -/
def runTests (st : RunState) : RunState × List (String × TestStatus) :=
  runTestsGo st st.testList

/-- The summary emitted by RunTests.testResults: the three counters, their
total, and the assertion count of the attached GsUnit instance. -/
structure Summary where
  pass : Nat
  fail : Nat
  err : Nat
  total : Nat
  asserts : Nat
  deriving DecidableEq, Repr

/-- RunTests.testResults: builds the summary rows Pass / Fail / Error / Total
(the sum of the three) / Asserts (this.gsunit.numAsserts). Console, sheet and
toast delivery are presentation I/O. -/
def testResults (st : RunState) (gsunit : GsUnitState) : Summary :=
  { pass := st.pass
    fail := st.fail
    err := st.err
    total := st.pass + st.fail + st.err
    asserts := gsunit.numAsserts }

end RunTests

/-- One call to an operation of the assertion library, with its arguments. -/
inductive AssertOp where
  | assertTrue (pMsg : String) (pActual : JSPrim) (pCode : String)
  | assertFalse (pMsg : String) (pActual : JSPrim) (pCode : String)
  | assertNull (pMsg : String) (pActual : JSPrim) (pCode : String)
  | assertNotNull (pMsg : String) (pActual : JSPrim) (pCode : String)
  | assertUndefined (pMsg : String) (pActual : JSPrim) (pCode : String)
  | assertNotUndefined (pMsg : String) (pActual : JSPrim) (pCode : String)
  | assertNaN (pMsg : String) (pActual : JSPrim) (pCode : String)
  | assertNotNaN (pMsg : String) (pActual : JSPrim) (pCode : String)
  | assertEqual (pMsg : String) (pActual pExpected : JSPrim) (pCode : String)
  | assertNotEqual (pMsg : String) (pActual pExpected : JSPrim) (pCode : String)
  | assertTypeEqual (pMsg : String) (pActual pExpected : JSPrim) (pCode : String)
  | assertSameType (pMsg : String) (pActual pExpected : JSPrim) (pCode : String)
  | assertRoughlyEqual (pMsg : String) (pActual pExpected pTolerance : JSNum) (pCode : String)
  | assertArrayEqual (pMsg : String) (pActual pExpected : JSVal) (pCode : String)
  | assertHashEqual (pMsg : String) (pActual pExpected : JSHash) (pCode : String)
  | assertArrayContains (pMsg : String) (pActual : JSVal) (pValue : JSPrim) (pCode : String)
  | assertStrContains (pMsg : String) (pActual pExpected : JSPrim) (pCode : String)
  | assertStrNotContains (pMsg : String) (pActual pExpected : JSPrim) (pCode : String)
  | assertThrow (pMsg : String) (pActual : Except Thrown JSPrim) (pCode : String)
  | fail (pMsg pCode : String)

/-- Whether the operation is GsUnit.fail. -/
def AssertOp.isFail : AssertOp → Bool
  | AssertOp.fail _ _ => true
  | _ => false

/-- Dispatch one assertion-library call on a state, keeping the resulting
state (the outcome value is irrelevant to the counting claim). -/
def applyAssert (st : GsUnitState) : AssertOp → GsUnitState
  | AssertOp.assertTrue m a c => (GsUnit.assertTrue st m a c).1
  | AssertOp.assertFalse m a c => (GsUnit.assertFalse st m a c).1
  | AssertOp.assertNull m a c => (GsUnit.assertNull st m a c).1
  | AssertOp.assertNotNull m a c => (GsUnit.assertNotNull st m a c).1
  | AssertOp.assertUndefined m a c => (GsUnit.assertUndefined st m a c).1
  | AssertOp.assertNotUndefined m a c => (GsUnit.assertNotUndefined st m a c).1
  | AssertOp.assertNaN m a c => (GsUnit.assertNaN st m a c).1
  | AssertOp.assertNotNaN m a c => (GsUnit.assertNotNaN st m a c).1
  | AssertOp.assertEqual m a e c => (GsUnit.assertEqual st m a e c).1
  | AssertOp.assertNotEqual m a e c => (GsUnit.assertNotEqual st m a e c).1
  | AssertOp.assertTypeEqual m a e c => (GsUnit.assertTypeEqual st m a e c).1
  | AssertOp.assertSameType m a e c => (GsUnit.assertSameType st m a e c).1
  | AssertOp.assertRoughlyEqual m a e t c => (GsUnit.assertRoughlyEqual st m a e t c).1
  | AssertOp.assertArrayEqual m a e c => (GsUnit.assertArrayEqual st m a e c).1
  | AssertOp.assertHashEqual m a e c => (GsUnit.assertHashEqual st m a e c).1
  | AssertOp.assertArrayContains m a v c => (GsUnit.assertArrayContains st m a v c).1
  | AssertOp.assertStrContains m a e c => (GsUnit.assertStrContains st m a e c).1
  | AssertOp.assertStrNotContains m a e c => (GsUnit.assertStrNotContains st m a e c).1
  | AssertOp.assertThrow m a c => (GsUnit.assertThrow st m a c).1
  | AssertOp.fail m c => (GsUnit.fail st m c).1

/-- Decidable equality for Except results, so concrete outcomes can be
settled by decide. -/
instance {e a : Type} [DecidableEq e] [DecidableEq a] : DecidableEq (Except e a) := fun x y =>
  match x, y with
  | Except.ok u, Except.ok v =>
    if h : u = v then isTrue (by rw [h]) else isFalse (by intro hc; cases hc; exact h rfl)
  | Except.error u, Except.error v =>
    if h : u = v then isTrue (by rw [h]) else isFalse (by intro hc; cases hc; exact h rfl)
  | Except.ok _, Except.error _ => isFalse (by intro hc; cases hc)
  | Except.error _, Except.ok _ => isFalse (by intro hc; cases hc)

/-- Shared concrete assertion-library state used by the example theorems. -/
def gs0 : GsUnitState :=
  { name := "base", debug := false, showDefault := true, numAsserts := 0 }

/-- Shorthand for a numeric JavaScript primitive. -/
def numJ (q : ℚ) : JSPrim := JSPrim.num (JSNum.num q)

def n1 : JSPrim := numJ 1
def n2 : JSPrim := numJ 2
def n3 : JSPrim := numJ 3

/-- A test that completes normally. -/
def tA : TestFun := { label := "testA", result := none }

/-- A test that raises an AssertFail. -/
def tB : TestFun :=
  { label := "testB"
    result := some (Thrown.assertFail (mkAssertFail "m"
      (JSAny.prim JSPrim.null) (JSAny.prim JSPrim.null) "True" "")) }

/-- A test that raises a plain (non-AssertFail) error. -/
def tC : TestFun :=
  { label := "testC"
    result := some (Thrown.jsError { name := "TypeError", message := "boom" }) }

/-- Engine state holding the three tests of the C1 scenario. -/
def runStateC1 : RunState :=
  { testList := [tA, tB, tC], name := "UnitTests", debug := false
    err := 0, fail := 0, pass := 0
    showInConsole := true, showInSheet := false, showPass := false
    showToast := true, showResults := true }

/-- Engine state with nonzero counters and a nonempty registry, used to
exercise reset. -/
def runStateC5 : RunState :=
  { testList := [tA], name := "UnitTests", debug := false
    err := 2, fail := 3, pass := 4
    showInConsole := true, showInSheet := false, showPass := false
    showToast := true, showResults := true }

/-- The failure thrown when the arrays have different lengths in the second
C7 example. -/
def fC7len : AssertFail :=
  mkAssertFail "m" (JSAny.arr [n1, n2]) (JSAny.arr [n1, n2, n3]) "ArrayEqual" ""

/-- The failure thrown by the third C7 example: element mismatch at index
one. -/
def fC7 : AssertFail :=
  mkAssertFail ("m" ++ "\n At index=1 expected=\"3\" got=\"2\"")
    (JSAny.prim n2) (JSAny.prim n3) "ArrayEqual" ""

/-- A value that is loosely self-equal and not loosely equal to undefined:
exactly the values (booleans, non-NaN numbers, strings) that survive the hash
comparison unchanged. -/
def jsSolid (p : JSPrim) : Bool :=
  jsLooseEq p p && !(jsLooseEq p JSPrim.undef)

/-- Hash with two bindings in one key order. -/
def hashA : JSHash := [("x", numJ 1), ("y", JSPrim.str "b")]

/-- The same bindings as hashA in the opposite key order. -/
def hashE : JSHash := [("y", JSPrim.str "b"), ("x", numJ 1)]

/-- The trace of runTestsGo lists exactly the labels of the tests it was
given, in order, whatever each test does. -/
theorem runTestsGo_trace : ∀ (l : List TestFun) (st : RunState),
    ((RunTests.runTestsGo st l).2).map Prod.fst = l.map TestFun.label := by
  intro l
  induction l with
  | nil => intro st; rfl
  | cons f rest ih => intro st; simp [RunTests.runTestsGo, ih]

/-- C1: on a registry with a passing test, an AssertFail-raising test and a
plain-error-raising test, runTests yields pass, fail and error counts of one
each with total three, the outcome rows appear in registration order; and for
every engine state the execution trace lists every registered test in
registration order, so a throw in one test never prevents the later tests. -/
theorem runTests_C1 :
    ((RunTests.runTests runStateC1).1.pass = 1 ∧
     (RunTests.runTests runStateC1).1.fail = 1 ∧
     (RunTests.runTests runStateC1).1.err = 1 ∧
     (RunTests.testResults (RunTests.runTests runStateC1).1 gs0).total = 3 ∧
     (RunTests.runTests runStateC1).2 =
       [("testA", TestStatus.pass), ("testB", TestStatus.fail),
        ("testC", TestStatus.error)]) ∧
    ∀ st : RunState,
      ((RunTests.runTests st).2).map Prod.fst = st.testList.map TestFun.label := by
  refine ⟨⟨by decide, by decide, by decide, by decide, by decide⟩, ?_⟩
  intro st
  exact runTestsGo_trace st.testList st

/-- C2: assertThrow never raises; when the callable returns without raising,
the AssertFail it builds is caught by its own catch clause and returned to
the caller with operator Throw instead of being raised. -/
theorem assertThrow_C2 :
    (∀ (st : GsUnitState) (m c : String) (r : Except Thrown JSPrim),
       ∃ t : Thrown, (GsUnit.assertThrow st m r c).2 = Except.ok t) ∧
    ∃ f : AssertFail,
      (GsUnit.assertThrow gs0 "m" (Except.ok (JSPrim.num (JSNum.num 5))) "").2 =
        Except.ok (Thrown.assertFail f) ∧ f.operator = "Throw" := by
  constructor
  · intro st m c r
    cases r with
    | ok v => exact ⟨_, rfl⟩
    | error e => exact ⟨e, rfl⟩
  · exact ⟨_, rfl, rfl⟩

/-- C4: addTest on a non-callable argument returns the configuration error to
its caller synchronously, increments the error counter, and leaves the pass
and fail counters unchanged. -/
theorem addTest_C4 : ∀ (st : RunState) (v : JSPrim),
    (∃ e : JSError, (RunTests.addTest st (RegArg.notFn v)).2 = Except.error e) ∧
    (RunTests.addTest st (RegArg.notFn v)).1.err = st.err + 1 ∧
    (RunTests.addTest st (RegArg.notFn v)).1.pass = st.pass ∧
    (RunTests.addTest st (RegArg.notFn v)).1.fail = st.fail := by
  intro st v
  have hty : (RegArg.notFn v).typeofArg ≠ "function" := by
    cases v <;> simp [RegArg.typeofArg, jsTypeof]
  refine ⟨⟨{ name := "Error", message := "addTest argument is not a function." }, ?_⟩, ?_, ?_, ?_⟩ <;>
    simp [RunTests.addTest, hty]

/-- C10: addTest on a non-callable argument leaves the registry unchanged, so
a subsequent run executes exactly the previously registered tests. -/
theorem addTest_C10 : ∀ (st : RunState) (v : JSPrim),
    (RunTests.addTest st (RegArg.notFn v)).1.testList = st.testList ∧
    ((RunTests.runTests (RunTests.addTest st (RegArg.notFn v)).1).2).map Prod.fst =
      st.testList.map TestFun.label := by
  intro st v
  have hty : (RegArg.notFn v).typeofArg ≠ "function" := by
    cases v <;> simp [RegArg.typeofArg, jsTypeof]
  have hlist : (RunTests.addTest st (RegArg.notFn v)).1.testList = st.testList := by
    simp [RunTests.addTest, hty]
  refine ⟨hlist, ?_⟩
  rw [RunTests.runTests, runTestsGo_trace, hlist]

/-- jsNumEq with NaN on the right is always false. -/
theorem jsNumEq_nan_right : ∀ x : JSNum, jsNumEq x JSNum.nan = false := by
  intro x
  cases x <;> rfl

/-- Loose equality with NaN on the right is always false: NaN compares equal
to nothing, whatever the left operand coerces to. -/
theorem jsLooseEq_nan_right : ∀ p : JSPrim, jsLooseEq p (JSPrim.num JSNum.nan) = false := by
  intro p
  cases p <;> simp [jsLooseEq, jsNumEq_nan_right]

/-- C9: because pActual != NaN is true for every value and pActual == NaN is
false for every value, assertNaN raises an AssertFail on every input, NaN
included, and assertNotNaN returns normally on every input. -/
theorem assertNaN_C9 : ∀ (st : GsUnitState) (m c : String) (p : JSPrim),
    (∃ f : AssertFail,
      (GsUnit.assertNaN st m p c).2 = Except.error (Thrown.assertFail f)) ∧
    (GsUnit.assertNotNaN st m p c).2 = Except.ok () := by
  intro st m c p
  constructor
  · refine ⟨mkAssertFail (GsUnit._default (GsUnit.bump st) m "Expected actual to not be a number.")
      (JSAny.prim p) (JSAny.prim (JSPrim.bool true)) "NaN" c, ?_⟩
    simp [GsUnit.assertNaN, jsLooseEq_nan_right]
  · simp [GsUnit.assertNotNaN, jsLooseEq_nan_right]

/-- C5 counterexample: reset followed by run on the emptied registry does not
emit an all-zero summary when the assertion library has already counted an
assertion, because the summary includes numAsserts, which reset does not
clear. -/
theorem resetRun_C5_counterexample :
    RunTests.testResults (RunTests.runTests (RunTests.resetTests runStateC5)).1
        { name := "base", debug := false, showDefault := true, numAsserts := 1 } ≠
      { pass := 0, fail := 0, err := 0, total := 0, asserts := 0 } := by
  decide

/-- C5 amended: for every engine state, resetTests zeroes the pass, fail and
error counters and empties the registry; reset followed by run on the empty
registry leaves all three counters at zero and emits a summary whose pass,
fail, error and total components are zero, while the asserts component keeps
the assertion library count. -/
theorem resetRun_C5 : ∀ (st : RunState) (g : GsUnitState),
    (RunTests.resetTests st).pass = 0 ∧ (RunTests.resetTests st).fail = 0 ∧
    (RunTests.resetTests st).err = 0 ∧ (RunTests.resetTests st).testList = [] ∧
    (RunTests.runTests (RunTests.resetTests st)).1.pass = 0 ∧
    (RunTests.runTests (RunTests.resetTests st)).1.fail = 0 ∧
    (RunTests.runTests (RunTests.resetTests st)).1.err = 0 ∧
    RunTests.testResults (RunTests.runTests (RunTests.resetTests st)).1 g =
      { pass := 0, fail := 0, err := 0, total := 0, asserts := g.numAsserts } := by
  intro st g
  simp [RunTests.resetTests, RunTests.runTests, RunTests.runTestsGo,
    RunTests.testResults]

/-- C3 counterexample: GsUnit.fail raises without incrementing numAsserts,
unlike every assert method. -/
theorem fail_C3_counterexample :
    ¬ ((applyAssert gs0 (AssertOp.fail "m" "")).numAsserts = gs0.numAsserts + 1) := by
  decide

/-- C3 amended: every assertion operation other than fail increments
numAsserts by exactly one, whether it passes or raises. -/
theorem applyAssert_C3 (st : GsUnitState) (op : AssertOp) (h : op.isFail = false) :
    (applyAssert st op).numAsserts = st.numAsserts + 1 := by
  cases op <;>
    simp_all [applyAssert, AssertOp.isFail, GsUnit.assertTrue, GsUnit.assertFalse,
      GsUnit.assertNull, GsUnit.assertNotNull, GsUnit.assertUndefined,
      GsUnit.assertNotUndefined, GsUnit.assertNaN, GsUnit.assertNotNaN,
      GsUnit.assertEqual, GsUnit.assertNotEqual, GsUnit.assertTypeEqual,
      GsUnit.assertSameType, GsUnit.assertRoughlyEqual, GsUnit.assertArrayEqual,
      GsUnit.assertHashEqual, GsUnit.assertArrayContains, GsUnit.assertStrContains,
      GsUnit.assertStrNotContains, GsUnit.assertThrow, GsUnit.bump] <;>
    (try split) <;>
    (try split) <;>
    simp [GsUnit.bump]

/-- C3 witness: a concrete non-fail operation on a concrete state bumps the
count from zero to one. -/
theorem applyAssert_C3_witness :
    (AssertOp.assertTrue "m" (JSPrim.bool true) "").isFail = false ∧
    (applyAssert gs0 (AssertOp.assertTrue "m" (JSPrim.bool true) "")).numAsserts =
      gs0.numAsserts + 1 :=
  ⟨rfl, applyAssert_C3 gs0 (AssertOp.assertTrue "m" (JSPrim.bool true) "") rfl⟩

/-- C6: the NaN guard of assertRoughlyEqual reads a nonexistent isNaN
property, so it never fires; consequently a NaN in any argument position
makes the call return normally (the tolerance comparison is false on NaN),
including the concrete failing input (NaN, 0, 0); for finite arguments the
call returns normally exactly when the absolute difference is within the
tolerance. -/
theorem assertRoughlyEqual_C6 :
    ((GsUnit.assertRoughlyEqual gs0 "m" JSNum.nan (JSNum.num 0) (JSNum.num 0) "").2 =
      Except.ok ()) ∧
    (∀ (st : GsUnitState) (m c : String) (e t : JSNum),
       (GsUnit.assertRoughlyEqual st m JSNum.nan e t c).2 = Except.ok ()) ∧
    (∀ (st : GsUnitState) (m c : String) (a t : JSNum),
       (GsUnit.assertRoughlyEqual st m a JSNum.nan t c).2 = Except.ok ()) ∧
    (∀ (st : GsUnitState) (m c : String) (a e : JSNum),
       (GsUnit.assertRoughlyEqual st m a e JSNum.nan c).2 = Except.ok ()) ∧
    (∀ (st : GsUnitState) (m c : String) (qa qe qt : ℚ),
       ((GsUnit.assertRoughlyEqual st m (JSNum.num qa) (JSNum.num qe)
           (JSNum.num qt) c).2 = Except.ok ()
         ↔ abs (qa - qe) ≤ qt)) := by
  refine ⟨by decide, ?_, ?_, ?_, ?_⟩
  · intro st m c e t
    cases e <;> cases t <;>
      simp [GsUnit.assertRoughlyEqual, GsUnit.numDotIsNaN, jsTruthy, jsSub, jsAbs, jsGt]
  · intro st m c a t
    cases a <;> cases t <;>
      simp [GsUnit.assertRoughlyEqual, GsUnit.numDotIsNaN, jsTruthy, jsSub, jsAbs, jsGt]
  · intro st m c a e
    cases a <;> cases e <;>
      simp [GsUnit.assertRoughlyEqual, GsUnit.numDotIsNaN, jsTruthy, jsSub, jsAbs, jsGt]
  · intro st m c qa qe qt
    by_cases h : abs (qa - qe) > qt
    · simp [GsUnit.assertRoughlyEqual, GsUnit.numDotIsNaN, jsTruthy, jsSub, jsAbs, jsGt, h,
        not_le.mpr h]
    · simp [GsUnit.assertRoughlyEqual, GsUnit.numDotIsNaN, jsTruthy, jsSub, jsAbs, jsGt, h,
        not_lt.mp h]

/-- Indexing the head of a cons. -/
theorem jsIndex_cons_zero (a : JSPrim) (l : List JSPrim) : jsIndex (a :: l) 0 = a := rfl

/-- Indexing past the head of a cons. -/
theorem jsIndex_cons_succ (a : JSPrim) (l : List JSPrim) (j : Nat) :
    jsIndex (a :: l) (j + 1) = jsIndex l j := rfl

/-- The element loop of assertArrayEqual succeeds exactly when the elements it
visits are pointwise strictly equal to the expected elements at the shifted
indices. -/
theorem arrayEqLoop_ok_iff (m c : String) (es : List JSPrim) :
    ∀ (as : List JSPrim) (i : Nat),
      (GsUnit.arrayEqLoop m c es i as = Except.ok ()) ↔
      ∀ j, j < as.length → jsStrictEq (jsIndex as j) (jsIndex es (i + j)) = true := by
  intro as
  induction as with
  | nil =>
    intro i
    simp [GsUnit.arrayEqLoop]
  | cons a rest ih =>
    intro i
    simp only [GsUnit.arrayEqLoop]
    by_cases h : jsStrictEq a (jsIndex es i) = true
    · rw [if_pos h, ih (i + 1)]
      constructor
      · intro hrest j hj
        cases j with
        | zero => simpa [jsIndex_cons_zero] using h
        | succ j' =>
          have hj' : j' < rest.length := by simpa using hj
          have hstep := hrest j' hj'
          rw [jsIndex_cons_succ]
          have harith : i + (j' + 1) = (i + 1) + j' := by omega
          rw [harith]
          exact hstep
      · intro hall j hj
        have hj1 : j + 1 < (a :: rest).length := by simpa using Nat.succ_lt_succ hj
        have hstep := hall (j + 1) hj1
        rw [jsIndex_cons_succ] at hstep
        have harith : i + (j + 1) = (i + 1) + j := by omega
        rw [harith] at hstep
        exact hstep
    · rw [if_neg h]
      constructor
      · intro hcon
        cases hcon
      · intro hall
        exact absurd (by simpa [jsIndex_cons_zero] using hall 0 (by simp)) h

/-- When the element loop of assertArrayEqual throws, it throws at the first
mismatching index, and the failure carries that pair of elements. -/
theorem arrayEqLoop_err (m c : String) (es : List JSPrim) :
    ∀ (as : List JSPrim) (i : Nat) (f : AssertFail),
      GsUnit.arrayEqLoop m c es i as = Except.error (Thrown.assertFail f) →
      ∃ j, j < as.length ∧
        jsStrictEq (jsIndex as j) (jsIndex es (i + j)) = false ∧
        (∀ k, k < j → jsStrictEq (jsIndex as k) (jsIndex es (i + k)) = true) ∧
        f.actual = JSAny.prim (jsIndex as j) ∧
        f.expected = JSAny.prim (jsIndex es (i + j)) := by
  intro as
  induction as with
  | nil =>
    intro i f hf
    cases hf
  | cons a rest ih =>
    intro i f hf
    rw [GsUnit.arrayEqLoop] at hf
    by_cases h : jsStrictEq a (jsIndex es i) = true
    · rw [if_pos h] at hf
      obtain ⟨j, hj, hne, hfirst, hact, hexp⟩ := ih (i + 1) f hf
      have harith : i + (j + 1) = (i + 1) + j := by omega
      refine ⟨j + 1, by simpa using Nat.succ_lt_succ hj, ?_, ?_, ?_, ?_⟩
      · rw [jsIndex_cons_succ, harith]
        exact hne
      · intro k hk
        cases k with
        | zero => simpa [jsIndex_cons_zero] using h
        | succ k' =>
          have hstep := hfirst k' (by omega)
          rw [jsIndex_cons_succ]
          have harith2 : i + (k' + 1) = (i + 1) + k' := by omega
          rw [harith2]
          exact hstep
      · rw [jsIndex_cons_succ]
        exact hact
      · rw [harith]
        exact hexp
    · rw [if_neg h] at hf
      refine ⟨0, by simp, ?_, ?_, ?_, ?_⟩
      · simpa [jsIndex_cons_zero] using Bool.eq_false_iff.mpr h
      · intro k hk
        omega
      · cases hf
        rfl
      · cases hf
        rfl

/-- C7: assertArrayEqual returns normally exactly when both arguments are
arrays of equal length whose elements are strictly equal index by index;
when it throws over equal-length arrays, the failure carries the elements at
the first differing index; and the three concrete spec examples behave as
stated. -/
theorem assertArrayEqual_C7 :
    (∀ (st : GsUnitState) (m c : String) (a e : JSVal),
       ((GsUnit.assertArrayEqual st m a e c).2 = Except.ok ()) ↔
       (∃ as es, a = JSVal.arr as ∧ e = JSVal.arr es ∧ as.length = es.length ∧
         ∀ j, j < as.length → jsStrictEq (jsIndex as j) (jsIndex es j) = true)) ∧
    (∀ (st : GsUnitState) (m c : String) (as es : List JSPrim) (f : AssertFail),
       as.length = es.length →
       (GsUnit.assertArrayEqual st m (JSVal.arr as) (JSVal.arr es) c).2 =
         Except.error (Thrown.assertFail f) →
       ∃ j, j < as.length ∧
         jsStrictEq (jsIndex as j) (jsIndex es j) = false ∧
         (∀ k, k < j → jsStrictEq (jsIndex as k) (jsIndex es k) = true) ∧
         f.actual = JSAny.prim (jsIndex as j) ∧
         f.expected = JSAny.prim (jsIndex es j)) ∧
    ((GsUnit.assertArrayEqual gs0 "m" (JSVal.arr [n1, n2, n3])
        (JSVal.arr [n1, n2, n3]) "").2 = Except.ok ()) ∧
    ((GsUnit.assertArrayEqual gs0 "m" (JSVal.arr [n1, n2])
        (JSVal.arr [n1, n2, n3]) "").2 = Except.error (Thrown.assertFail fC7len)) ∧
    ((GsUnit.assertArrayEqual gs0 "m" (JSVal.arr [n1, n2, n3])
        (JSVal.arr [n1, n3, n2]) "").2 = Except.error (Thrown.assertFail fC7)) := by
  refine ⟨?_, ?_, by decide, by decide, by decide⟩
  · intro st m c a e
    constructor
    · intro hok
      cases a with
      | prim p =>
        cases e <;> simp [GsUnit.assertArrayEqual] at hok
      | arr as =>
        cases e with
        | prim p => simp [GsUnit.assertArrayEqual] at hok
        | arr es =>
          by_cases hlen : as.length = es.length
          · refine ⟨as, es, rfl, rfl, hlen, ?_⟩
            have hloop : GsUnit.arrayEqLoop m c es 0 as = Except.ok () := by
              simpa [GsUnit.assertArrayEqual, hlen] using hok
            have hall := (arrayEqLoop_ok_iff m c es as 0).mp hloop
            intro j hj
            simpa using hall j hj
          · simp [GsUnit.assertArrayEqual, hlen] at hok
    · rintro ⟨as, es, rfl, rfl, hlen, hall⟩
      have hloop : GsUnit.arrayEqLoop m c es 0 as = Except.ok () := by
        rw [arrayEqLoop_ok_iff m c es as 0]
        intro j hj
        simpa using hall j hj
      simp [GsUnit.assertArrayEqual, hlen, hloop]
  · intro st m c as es f hlen hf
    have hloop : GsUnit.arrayEqLoop m c es 0 as = Except.error (Thrown.assertFail f) := by
      simpa [GsUnit.assertArrayEqual, hlen] using hf
    obtain ⟨j, hj, hne, hfirst, hact, hexp⟩ := arrayEqLoop_err m c es as 0 f hloop
    exact ⟨j, hj, by simpa using hne, fun k hk => by simpa using hfirst k hk,
      hact, by simpa using hexp⟩

/-- C7 witness: applying the characterization to the concrete mismatching
pair yields the first differing index with its elements. -/
theorem assertArrayEqual_C7_witness :
    ∃ j, j < ([n1, n2, n3] : List JSPrim).length ∧
      jsStrictEq (jsIndex [n1, n2, n3] j) (jsIndex [n1, n3, n2] j) = false ∧
      (∀ k, k < j → jsStrictEq (jsIndex [n1, n2, n3] k) (jsIndex [n1, n3, n2] k) = true) ∧
      fC7.actual = JSAny.prim (jsIndex [n1, n2, n3] j) ∧
      fC7.expected = JSAny.prim (jsIndex [n1, n3, n2] j) :=
  assertArrayEqual_C7.2.1 gs0 "m" "" [n1, n2, n3] [n1, n3, n2] fC7 rfl (by decide)

/-- On a hash with pairwise distinct keys, looking up the key of a member
binding returns its value. -/
theorem hashLookup_nodup : ∀ (h : JSHash) (p : String × JSPrim),
    List.Nodup (List.map Prod.fst h) → p ∈ h → hashLookup h p.1 = p.2 := by
  intro h
  induction h with
  | nil =>
    intro p _ hp
    cases hp
  | cons q rest ih =>
    intro p hnd hp
    rw [List.map_cons, List.nodup_cons] at hnd
    cases hp with
    | head => simp [hashLookup]
    | tail _ hmem =>
      have hne : ¬(q.1 == p.1) = true := by
        intro hEq
        exact hnd.1 ((eq_of_beq hEq) ▸ List.mem_map_of_mem Prod.fst hmem)
      have hstep : hashLookup (q :: rest) p.1 = hashLookup rest p.1 := by
        simp [hashLookup, List.find?, hne]
      rw [hstep]
      exact ih p hnd.2 hmem

/-- The first loop of assertHashEqual succeeds exactly when, for every
binding it visits, the expected hash holds the key with a value not loosely
equal to undefined and the two lookups agree loosely. -/
theorem hashLoop1_ok_iff (st : GsUnitState) (m c : String) (a e : JSHash) :
    ∀ l : List (String × JSPrim),
      (GsUnit.hashLoop1 st m c a e l = Except.ok ()) ↔
      ∀ p ∈ l, jsLooseEq (hashLookup e p.1) JSPrim.undef = false ∧
        jsLooseEq (hashLookup a p.1) (hashLookup e p.1) = true := by
  intro l
  induction l with
  | nil => simp [GsUnit.hashLoop1]
  | cons q rest ih =>
    obtain ⟨k, v⟩ := q
    simp only [GsUnit.hashLoop1]
    by_cases h1 : jsLooseEq (hashLookup e k) JSPrim.undef = true
    · simp [h1]
    · by_cases h2 : jsLooseEq (hashLookup a k) (hashLookup e k) = true
      · simp [h1, h2, ih]
      · simp [h1, h2]

/-- The second loop of assertHashEqual succeeds exactly when, for every
binding it visits, the actual hash holds the key with a value not loosely
equal to undefined. -/
theorem hashLoop2_ok_iff (st : GsUnitState) (m c : String) (a e : JSHash) :
    ∀ l : List (String × JSPrim),
      (GsUnit.hashLoop2 st m c a e l = Except.ok ()) ↔
      ∀ p ∈ l, jsLooseEq (hashLookup a p.1) JSPrim.undef = false := by
  intro l
  induction l with
  | nil => simp [GsUnit.hashLoop2]
  | cons q rest ih =>
    obtain ⟨k, v⟩ := q
    simp only [GsUnit.hashLoop2]
    by_cases h1 : jsLooseEq (hashLookup a k) JSPrim.undef = true
    · simp [h1]
    · simp [h1, ih]

/-- C8 counterexample: two hashes with exactly the same single binding, whose
value is null, make assertHashEqual raise, because a key bound to null is
loosely equal to undefined and so counts as missing. -/
theorem assertHashEqual_C8_counterexample :
    (GsUnit.assertHashEqual gs0 "m" [("a", JSPrim.null)] [("a", JSPrim.null)] "").2 ≠
      Except.ok () := by
  decide

/-- C8 amended: assertHashEqual returns normally exactly when every key of
actual is bound in expected to a value that is not loosely equal to undefined
and loosely equal to its value in actual, and every key of expected is bound
in actual to a value not loosely equal to undefined; in particular two hashes
with the same bindings in any key order pass whenever no value is null,
undefined or NaN. -/
theorem assertHashEqual_C8 :
    (∀ (st : GsUnitState) (m c : String) (a e : JSHash),
       ((GsUnit.assertHashEqual st m a e c).2 = Except.ok ()) ↔
       ((∀ p ∈ a, jsLooseEq (hashLookup e p.1) JSPrim.undef = false ∧
           jsLooseEq (hashLookup a p.1) (hashLookup e p.1) = true) ∧
        (∀ p ∈ e, jsLooseEq (hashLookup a p.1) JSPrim.undef = false))) ∧
    (∀ (st : GsUnitState) (m c : String) (a e : JSHash),
       List.Nodup (List.map Prod.fst a) →
       (∀ p ∈ a, hashLookup e p.1 = p.2) →
       (∀ p ∈ e, hashLookup a p.1 = p.2) →
       (∀ p ∈ a, jsSolid p.2 = true) →
       (∀ p ∈ e, jsSolid p.2 = true) →
       (GsUnit.assertHashEqual st m a e c).2 = Except.ok ()) := by
  have hiff : ∀ (st : GsUnitState) (m c : String) (a e : JSHash),
      ((GsUnit.assertHashEqual st m a e c).2 = Except.ok ()) ↔
      ((∀ p ∈ a, jsLooseEq (hashLookup e p.1) JSPrim.undef = false ∧
          jsLooseEq (hashLookup a p.1) (hashLookup e p.1) = true) ∧
       (∀ p ∈ e, jsLooseEq (hashLookup a p.1) JSPrim.undef = false)) := by
    intro st m c a e
    simp only [GsUnit.assertHashEqual]
    cases hl1 : GsUnit.hashLoop1 (GsUnit.bump st) m c a e a with
    | error t =>
      simp only []
      constructor
      · intro hcon
        cases hcon
      · rintro ⟨h1, _⟩
        rw [← hashLoop1_ok_iff (GsUnit.bump st) m c a e a] at h1
        rw [hl1] at h1
        cases h1
    | ok u =>
      cases u
      have h1 := (hashLoop1_ok_iff (GsUnit.bump st) m c a e a).mp hl1
      simp only []
      rw [hashLoop2_ok_iff (GsUnit.bump st) m c a e e]
      constructor
      · intro h2
        exact ⟨h1, h2⟩
      · rintro ⟨_, h2⟩
        exact h2
  constructor
  · exact hiff
  · intro st m c a e hnd hae hea hsa hse
    rw [hiff]
    constructor
    · intro p hp
      have hlookupA : hashLookup a p.1 = p.2 := hashLookup_nodup a p hnd hp
      have hlookupE : hashLookup e p.1 = p.2 := hae p hp
      have hs := hsa p hp
      rw [jsSolid, Bool.and_eq_true, Bool.not_eq_true', Bool.eq_false_iff] at hs
      rw [hlookupA, hlookupE]
      exact ⟨Bool.eq_false_iff.mpr hs.2, hs.1⟩
    · intro p hp
      have hlookupA : hashLookup a p.1 = p.2 := hea p hp
      have hs := hse p hp
      rw [jsSolid, Bool.and_eq_true, Bool.not_eq_true', Bool.eq_false_iff] at hs
      rw [hlookupA]
      exact Bool.eq_false_iff.mpr hs.2

/-- C8 witness: two concrete hashes with the same solid bindings in different
key orders compare equal. -/
theorem assertHashEqual_C8_witness :
    (GsUnit.assertHashEqual gs0 "m" hashA hashE "").2 = Except.ok () :=
  assertHashEqual_C8.2 gs0 "m" "" hashA hashE (by decide) (by decide) (by decide)
    (by decide) (by decide)
